import Mathlib

/-!
Shallow embedding of the face-enrollment / verification / attendance core of
`src/backend/app.py` (Flask routes `register_face`, `verify_face`,
`mark_attendance`).

Conventions of the embedding:
* The vision library (PIL decode, OpenCV cascade detector, LBPH recognizer)
  is abstracted as an `Env` of pure functions over abstract image types
  `Img` (a decoded color image) and `GImg` (a grayscale image / region):
  - `decode` models `decode_base64_image` (may raise: `Except String`);
  - `toGray` models `image_to_cv2` + `cv2.cvtColor(..., COLOR_BGR2GRAY)`;
  - `detect` models `face_cascade.detectMultiScale(gray, 1.3, 5)` for the
    one fixed-parameter cascade the route constructs;
  - `jpegRead` models saving an image as JPEG quality 85 followed by
    `cv2.imread(path, IMREAD_GRAYSCALE)` on the resulting file (`none`
    models an unreadable file);
  - `crop` models the numpy slice `img[y:y+h, x:x+w]`;
  - `predict` models training a fresh LBPH recognizer on the samples
    (all with label 0) and returning the distance of `predict` on a region.
  `img.save` itself is modelled as total; decode is the fallible step.
* Machine floats (`confidence`, `match_score`) are modelled as rationals;
  Python's `round(x, 1)` is modelled as round-half-to-even at one decimal.
* Files under `face_data/<student_id>/face_<i>.jpg` are identified by the
  pair `(student_id, i)`, and the filesystem is a map from such paths to
  optional file contents.
* The mutable module-level state (`students_db`, `attendance_db`, the
  `face_data` directory) is an explicit `St` record threaded through each
  route; each route returns `(response, state-after)`.
* `datetime.now()`, `uuid.uuid4()` and `np.random.random()` are passed in
  as explicit arguments.
-/

namespace StudentPortal

/-- Python `round(q, 1)` at the rational level: round-half-to-even of `10*q`,
divided back by `10`. -/
def roundHalfEven (q : ℚ) : ℤ :=
  if Int.fract q < 1/2 then ⌊q⌋
  else if 1/2 < Int.fract q then ⌊q⌋ + 1
  else if ⌊q⌋ % 2 = 0 then ⌊q⌋ else ⌊q⌋ + 1

/-- Model of Python `round(x, 1)` on the score values of the backend. -/
def pyRound1 (q : ℚ) : ℚ := (roundHalfEven (q * 10) : ℚ) / 10

/-- Python `max(a, b)` on rationals (kept as an explicit `if` so that it
evaluates by `decide`). -/
def pyMax (a b : ℚ) : ℚ := if a < b then b else a

/-- An axis-aligned face bounding box, as returned by `detectMultiScale`. -/
structure Box where
  x : Nat
  y : Nat
  w : Nat
  h : Nat
deriving DecidableEq, Repr

/-- A stored face-image file path `face_data/<student_id>/face_<i>.jpg`,
identified by `(student_id, i)`. -/
abbrev FacePath := String × Nat

/-- The vision-library collaborators of the core, as pure functions. -/
structure Env (Img GImg : Type) where
  decode : String → Except String Img
  toGray : Img → GImg
  detect : GImg → List Box
  jpegRead : Img → Option GImg
  crop : GImg → Box → GImg
  predict : List GImg → GImg → ℚ

/-- One entry of `students_db`: the dict stored by `register_face`. -/
structure Student where
  id : String
  name : String
  face_paths : List FacePath
  registered_at : String
deriving DecidableEq, Repr

/-- One entry of `attendance_db`: the dict appended by `mark_attendance`. -/
structure AttRecord where
  id : String
  student_id : String
  subject : String
  date : String
  time : String
  status : String
  confidence : ℚ
deriving DecidableEq, Repr

/-- The mutable module-level state of `app.py` that the three core routes
touch: the in-memory `students_db` and `attendance_db`, and the contents of
the `face_data` directory. -/
structure St (Img : Type) where
  students_db : String → Option Student
  attendance_db : List AttRecord
  fs : FacePath → Option Img

/-- Responses of `/api/face/verify`: a 400 error, a 500 error, or a JSON
body `{verified, confidence?, student_name?, message}` with HTTP 200. -/
inductive VResp where
  | err400 (msg : String)
  | err500 (msg : String)
  | ok (verified : Bool) (confidence : Option ℚ) (student_name : Option String)
      (message : String)
deriving DecidableEq, Repr

/-- Responses of `/api/face/register`. -/
inductive RResp where
  | err400 (msg : String)
  | err500 (msg : String)
  | ok (student_id : String) (message : String) (images_saved : Nat)
deriving DecidableEq, Repr

/-- Responses of `/api/attendance/mark`. -/
inductive AResp where
  | err400 (msg : String)
  | ok (record : AttRecord) (message : String)
deriving DecidableEq, Repr

/-- The saving loop of `register_face`: decode each base64 string and write it
to `face_data/<sid>/face_<i>.jpg`. A decode failure raises, leaving the files
already written in place; the result is the filesystem after the loop, the
list of saved paths, and the exception message if one was raised. -/
def saveImages {Img GImg : Type} (env : Env Img GImg)
    (fs : FacePath → Option Img) (sid : String) (i : Nat) :
    List String → ((FacePath → Option Img) × List FacePath × Option String)
  | [] => (fs, [], none)
  | d :: rest =>
    match env.decode d with
    | .error e => (fs, [], some e)
    | .ok img =>
      let fsNew : FacePath → Option Img :=
        fun p => if p = (sid, i) then some img else fs p
      let r := saveImages env fsNew sid (i + 1) rest
      (r.1, (sid, i) :: r.2.1, r.2.2)

/-- Embedding of `register_face` (`app.py` lines 255-293). `student_id` and
`name` are the optional request fields (`data.get`), `genId` the
`str(uuid.uuid4())` default, `now` the `datetime.now().isoformat()` value. -/
def register_face {Img GImg : Type} (env : Env Img GImg) (st : St Img)
    (student_id name : Option String) (genId now : String)
    (images : List String) : RResp × St Img :=
  let sid := student_id.getD genId
  let nm := name.getD "Unknown"
  if images = [] then
    (.err400 "No face images provided", st)
  else
    let r := saveImages env st.fs sid 0 images
    match r.2.2 with
    | some e => (.err500 e, { st with fs := r.1 })
    | none =>
      let record : Student := ⟨sid, nm, r.2.1, now⟩
      (.ok sid ("Face registered for " ++ nm) r.2.1.length,
       { st with
           fs := r.1,
           students_db := fun s => if s = sid then some record else st.students_db s })

/-- The training-sample collection loop of `verify_face` (lines 331-339):
for each stored path, read the file back in grayscale (skipping unreadable
files), re-run the detector on it, and crop every detected box. -/
def trainSamples {Img GImg : Type} (env : Env Img GImg)
    (fs : FacePath → Option Img) : List FacePath → List GImg
  | [] => []
  | p :: rest =>
    (match (fs p).bind env.jpegRead with
     | none => []
     | some img => (env.detect img).map (env.crop img)) ++ trainSamples env fs rest

/-- Embedding of `verify_face` (`app.py` lines 297-357). `student_id` and
`image` are the optional request fields; the route never writes to the state,
which it returns unchanged on every branch. -/
def verify_face {Img GImg : Type} (env : Env Img GImg) (st : St Img)
    (student_id image : Option String) : VResp × St Img :=
  match image with
  | none => (.err400 "No image provided", st)
  | some imgStr =>
    if imgStr = "" then (.err400 "No image provided", st)
    else
      match env.decode imgStr with
      | .error e => (.err500 e, st)
      | .ok testImg =>
        let gray := env.toGray testImg
        match env.detect gray with
        | [] => (.ok false none none "No face detected in image", st)
        | f :: _ =>
          let fallback : VResp × St Img := (.ok false none none "Student not found", st)
          match student_id with
          | none => fallback
          | some sid =>
            if sid = "" then fallback
            else
              match st.students_db sid with
              | none => fallback
              | some student =>
                let train := trainSamples env st.fs student.face_paths
                if train.isEmpty then fallback
                else
                  let d := env.predict train (env.crop gray f)
                  let score := pyMax 0 (100 - d)
                  (.ok (decide (40 < score)) (some (pyRound1 score))
                     (some student.name)
                     (if 40 < score then "Face verified" else "Face does not match"),
                   st)

/-- Embedding of `mark_attendance` (`app.py` lines 361-389). `uuidStr`,
`date`, `time` and the random draw `r ∈ [0,1)` are explicit arguments. -/
def mark_attendance {Img : Type} (st : St Img)
    (student_id subject : Option String) (uuidStr date time : String) (r : ℚ) :
    AResp × St Img :=
  match student_id with
  | none => (.err400 "Student ID required", st)
  | some sid =>
    if sid = "" then (.err400 "Student ID required", st)
    else
      let subj := subject.getD "General"
      let record : AttRecord :=
        ⟨uuidStr, sid, subj, date, time, "present", pyRound1 (85 + r * 15)⟩
      (.ok record ("Attendance marked for " ++ subj),
       { st with attendance_db := st.attendance_db ++ [record] })

/-! ## Concrete instances used for witnesses and counterexamples

Images are represented by natural numbers. `decode` knows a probe image
containing a face (`"probe"` ↦ 1), a probe image containing no face
(`"noface"` ↦ 0), two enrollment images (`"i1"` ↦ 3, `"i2"` ↦ 4), and
rejects everything else. The detector finds one box in every nonzero image
and none in image 0; image 9 is unreadable after the JPEG round trip. The
classifier always reports distance 59.96, so the unrounded match score is
`max 0 (100 - 59.96) = 40.04 > 40` while the reported rounded confidence is
exactly `40.0`. -/

/-- A concrete vision environment over `Nat` images. -/
def cEnv : Env Nat Nat where
  decode s :=
    if s = "probe" then .ok 1
    else if s = "noface" then .ok 0
    else if s = "i1" then .ok 3
    else if s = "i2" then .ok 4
    else .error "cannot identify image file"
  toGray n := n
  detect n := if n = 0 then [] else [⟨0, 0, 2, 2⟩]
  jpegRead n := if n = 9 then none else some n
  crop img _ := img
  predict _ _ := 1499 / 25

/-- A concrete state: `"s1"` is enrolled with one readable face image,
`"s2"` is enrolled with one image that is unreadable after the JPEG round
trip (so it yields zero training samples). -/
def cSt : St Nat where
  students_db s :=
    if s = "s1" then some ⟨"s1", "Alice", [("s1", 0)], "t0"⟩
    else if s = "s2" then some ⟨"s2", "Bob", [("s2", 0)], "t0"⟩
    else none
  attendance_db := []
  fs p := if p = ("s1", 0) then some 5 else if p = ("s2", 0) then some 9 else none

/-- The empty concrete state. -/
def cSt0 : St Nat where
  students_db _ := none
  attendance_db := []
  fs _ := none

/-! ## Arithmetic facts about the rounding and clamping helpers -/

lemma roundHalfEven_ge_floor (q : ℚ) : ⌊q⌋ ≤ roundHalfEven q := by
  unfold roundHalfEven
  split_ifs <;> omega

lemma roundHalfEven_nonneg (q : ℚ) (h : 0 ≤ q) : 0 ≤ roundHalfEven q := by
  have h0 : (0 : ℤ) ≤ ⌊q⌋ := by
    rw [Int.le_floor]
    exact_mod_cast h
  exact le_trans h0 (roundHalfEven_ge_floor q)

lemma roundHalfEven_le_of_le (q : ℚ) (n : ℤ) (h : q ≤ n) : roundHalfEven q ≤ n := by
  have hfl : ⌊q⌋ ≤ n := by
    rw [Int.floor_le_iff]
    have : (n : ℚ) < n + 1 := by norm_num
    exact lt_of_le_of_lt h this
  unfold roundHalfEven
  split_ifs with h1 h2 h3
  · exact hfl
  · -- fractional part exceeds 1/2, so the floor is strictly below `n`
    have hq : (⌊q⌋ : ℚ) + 1/2 < q := by
      have := h2
      unfold Int.fract at this
      linarith
    have : (⌊q⌋ : ℚ) < (n : ℚ) := by linarith
    have : ⌊q⌋ < n := by exact_mod_cast this
    omega
  · exact hfl
  · -- fractional part is exactly 1/2
    have hq : (⌊q⌋ : ℚ) + 1/2 = q := by
      have h2 : ¬ 1/2 < Int.fract q := h2
      have h1 : ¬ Int.fract q < 1/2 := h1
      have : Int.fract q = 1/2 := by
        unfold Int.fract at h1 h2 ⊢
        linarith
      unfold Int.fract at this
      linarith
    have : (⌊q⌋ : ℚ) < (n : ℚ) := by linarith
    have : ⌊q⌋ < n := by exact_mod_cast this
    omega

lemma pyRound1_nonneg (q : ℚ) (h : 0 ≤ q) : 0 ≤ pyRound1 q := by
  unfold pyRound1
  have : (0 : ℤ) ≤ roundHalfEven (q * 10) := roundHalfEven_nonneg _ (by linarith)
  have : (0 : ℚ) ≤ (roundHalfEven (q * 10) : ℚ) := by exact_mod_cast this
  linarith

lemma pyRound1_le_100 (q : ℚ) (h : q ≤ 100) : pyRound1 q ≤ 100 := by
  unfold pyRound1
  have h1 : roundHalfEven (q * 10) ≤ (1000 : ℤ) :=
    roundHalfEven_le_of_le _ 1000 (by push_cast; linarith)
  have : (roundHalfEven (q * 10) : ℚ) ≤ 1000 := by exact_mod_cast h1
  linarith

lemma pyMax_zero_nonneg (x : ℚ) : 0 ≤ pyMax 0 x := by
  unfold pyMax
  split_ifs with h
  · linarith
  · linarith

lemma pyMax_score_le_100 (d : ℚ) (h : 0 ≤ d) : pyMax 0 (100 - d) ≤ 100 := by
  unfold pyMax
  split_ifs <;> linarith

example : (verify_face cEnv cSt (some "s1") (some "probe")).1 =
    .ok true (some 40) (some "Alice") "Face verified" := by
  simp [verify_face, cEnv, cSt, trainSamples]
  norm_num [pyRound1, pyMax, roundHalfEven, Int.fract]

example : (verify_face cEnv cSt (some "s2") (some "probe")).1 =
    .ok false none none "Student not found" := by
  simp [verify_face, cEnv, cSt, trainSamples]

example : (verify_face cEnv cSt (some "s1") (some "noface")).1 =
    .ok false none none "No face detected in image" := by
  simp [verify_face, cEnv, cSt]

example : (verify_face cEnv cSt (some "s1") (some "zzz")).1 =
    .err500 "cannot identify image file" := by
  simp [verify_face, cEnv, cSt]

/-! ## Claim theorems -/

/-- C10: the verify operation never mutates program state — for every
environment, state and request, the state after `verify_face` (its
`students_db`, `attendance_db` and stored files, hence every identity's
region-path list) is exactly the state before. -/
theorem verify_face_preserves_state {Img GImg : Type} (env : Env Img GImg)
    (st : St Img) (student_id image : Option String) :
    (verify_face env st student_id image).2 = st := by
  unfold verify_face
  rcases image with _ | s
  · rfl
  · dsimp only
    split
    · rfl
    · split
      · rfl
      · split
        · rfl
        · split
          · rfl
          · split
            · rfl
            · split
              · rfl
              · split <;> rfl

/-- C4: if the face locator finds zero faces in the decoded probe image,
verify returns `verified = false` with the "No face detected in image"
message as a 200-success body, for any `student_id` (absent, unknown or
enrolled), and leaves the state unchanged. -/
theorem verify_face_no_face {Img GImg : Type} (env : Env Img GImg) (st : St Img)
    (student_id : Option String) (s : String) (i : Img)
    (hs : s ≠ "") (hdec : env.decode s = .ok i)
    (hdet : env.detect (env.toGray i) = []) :
    verify_face env st student_id (some s) =
      (.ok false none none "No face detected in image", st) := by
  simp [verify_face, hs, hdec, hdet]

/-- Witness for C4 at a concrete probe with no detectable face. -/
theorem verify_face_no_face_witness :
    verify_face cEnv cSt none (some "noface") =
      (.ok false none none "No face detected in image", cSt) :=
  verify_face_no_face cEnv cSt none "noface" 0 (by simp) (by simp [cEnv])
    (by simp [cEnv])

/-- C5: if the probe decodes and contains a detectable face but the supplied
`student_id` is absent or not a key of the identity store, verify returns
`verified = false` with the "Student not found" message as a 200-success
body, for any probe content. -/
theorem verify_face_unknown_student {Img GImg : Type} (env : Env Img GImg)
    (st : St Img) (student_id : Option String) (s : String) (i : Img)
    (f : Box) (rest : List Box)
    (hs : s ≠ "") (hdec : env.decode s = .ok i)
    (hdet : env.detect (env.toGray i) = f :: rest)
    (hsid : student_id = none ∨
      ∃ sid, student_id = some sid ∧ st.students_db sid = none) :
    verify_face env st student_id (some s) =
      (.ok false none none "Student not found", st) := by
  rcases hsid with h | ⟨sid, hsid, hdb⟩
  · subst h
    simp [verify_face, hs, hdec, hdet]
  · subst hsid
    rcases eq_or_ne sid "" with h | h
    · subst h
      simp [verify_face, hs, hdec, hdet]
    · simp [verify_face, hs, hdec, hdet, h, hdb]

/-- Witness for C5 at a concrete unknown student id. -/
theorem verify_face_unknown_student_witness :
    verify_face cEnv cSt (some "nobody") (some "probe") =
      (.ok false none none "Student not found", cSt) :=
  verify_face_unknown_student cEnv cSt (some "nobody") "probe" 1 ⟨0, 0, 2, 2⟩ []
    (by simp) (by simp [cEnv]) (by simp [cEnv])
    (Or.inr ⟨"nobody", rfl, by simp [cSt]⟩)

/-- C6: enrollment with an empty `images` list returns the 400 error
"No face images provided" and leaves the whole state — identity store,
attendance list and stored files — unchanged. -/
theorem register_face_empty_images {Img GImg : Type} (env : Env Img GImg)
    (st : St Img) (student_id name : Option String) (genId now : String) :
    register_face env st student_id name genId now [] =
      (.err400 "No face images provided", st) := rfl

/-- C8: marking attendance with a non-empty `student_id` always succeeds and
appends a record with status `"present"` — for an arbitrary prior state, so
no verification needs to have run or succeeded for that identity. -/
theorem mark_attendance_appends_present {Img : Type} (st : St Img)
    (sid : String) (subject : Option String) (uuidStr date time : String)
    (r : ℚ) (hsid : sid ≠ "") :
    mark_attendance st (some sid) subject uuidStr date time r =
      (.ok ⟨uuidStr, sid, subject.getD "General", date, time, "present",
          pyRound1 (85 + r * 15)⟩
        ("Attendance marked for " ++ subject.getD "General"),
       { st with attendance_db := st.attendance_db ++
          [⟨uuidStr, sid, subject.getD "General", date, time, "present",
            pyRound1 (85 + r * 15)⟩] }) := by
  simp [mark_attendance, hsid]

/-- Witness for C8 at a concrete attendance request. -/
theorem mark_attendance_appends_present_witness :
    mark_attendance cSt (some "s1") none "u1" "2026-10-12" "10:00:00" (1/2) =
      (.ok ⟨"u1", "s1", "General", "2026-10-12", "10:00:00", "present",
          pyRound1 (85 + (1/2) * 15)⟩
        ("Attendance marked for " ++ "General"),
       { cSt with attendance_db := cSt.attendance_db ++
          [⟨"u1", "s1", "General", "2026-10-12", "10:00:00", "present",
            pyRound1 (85 + (1/2) * 15)⟩] }) :=
  mark_attendance_appends_present cSt "s1" none "u1" "2026-10-12" "10:00:00"
    (1/2) (by simp)

/-- Whether a verify response is a 200 JSON body rather than an error. -/
def VResp.isSuccess : VResp → Bool
  | .ok _ _ _ _ => true
  | _ => false

lemma VResp.isSuccess_iff (r : VResp) :
    r.isSuccess = true ↔ ∃ v c n m, r = .ok v c n m := by
  cases r <;> simp [VResp.isSuccess]

/-- Every branch of `verify_face` after a successful decode returns a
200-success JSON body, never an error response. -/
lemma verify_face_ok_of_decode {Img GImg : Type} (env : Env Img GImg)
    (st : St Img) (sid : Option String) (s : String) (i : Img)
    (hs : s ≠ "") (hdec : env.decode s = .ok i) :
    ∃ v c n m, (verify_face env st sid (some s)).1 = .ok v c n m := by
  rw [← VResp.isSuccess_iff]
  simp only [verify_face]
  rw [if_neg hs, hdec]
  dsimp only
  split
  · rfl
  · split
    · rfl
    · split
      · rfl
      · split
        · rfl
        · split <;> rfl

/-- C9 (amended): `verify_face` returns the 400 error exactly when the
`image` field is missing or the empty string; a decode failure surfaces as a
500 error carrying the underlying message; and whenever a non-empty image
decodes successfully the response is a 200 body — so "no face" and
"identity not found" are never errors. -/
theorem verify_face_error_semantics {Img GImg : Type} (env : Env Img GImg)
    (st : St Img) (sid img : Option String) :
    ((∃ m, (verify_face env st sid img).1 = .err400 m) ↔
        img = none ∨ img = some "")
    ∧ (∀ s e, img = some s → s ≠ "" → env.decode s = .error e →
        (verify_face env st sid img).1 = .err500 e)
    ∧ (∀ s i, img = some s → s ≠ "" → env.decode s = .ok i →
        ∃ v c n m, (verify_face env st sid img).1 = .ok v c n m) := by
  refine ⟨⟨?_, ?_⟩, ?_, ?_⟩
  · rintro ⟨m, hm⟩
    rcases img with _ | s
    · exact Or.inl rfl
    · rcases eq_or_ne s "" with h | h
      · exact Or.inr (by rw [h])
      · exfalso
        rcases hdec : env.decode s with e | i
        · rw [show (verify_face env st sid (some s)).1 = .err500 e by
            simp [verify_face, h, hdec]] at hm
          exact VResp.noConfusion hm
        · obtain ⟨v, c, n, m2, hok⟩ := verify_face_ok_of_decode env st sid s i h hdec
          rw [hok] at hm
          exact VResp.noConfusion hm
  · rintro (h | h) <;> subst h
    · exact ⟨"No image provided", rfl⟩
    · exact ⟨"No image provided", by simp [verify_face]⟩
  · rintro s e rfl hs hdec
    simp [verify_face, hs, hdec]
  · rintro s i rfl hs hdec
    exact verify_face_ok_of_decode env st sid s i hs hdec

/-- C9 counterexample: a request whose `image` field is present but equal to
the empty string is rejected with the 400 error, so "400 iff the image field
is missing" fails as stated (`if not image` treats `""` as missing). -/
theorem verify_face_empty_image_counterexample :
    (some "" : Option String) ≠ none ∧
    (verify_face cEnv cSt (some "s1") (some "")).1 =
      .err400 "No image provided" :=
  ⟨by simp, by simp [verify_face]⟩

/-- Witness for C9 at a concrete malformed image payload. -/
theorem verify_face_error_semantics_witness :
    (verify_face cEnv cSt none (some "zzz")).1 =
      .err500 "cannot identify image file" :=
  (verify_face_error_semantics cEnv cSt none (some "zzz")).2.1 "zzz"
    "cannot identify image file" rfl (by simp) (by simp [cEnv])

/-- C1 (amended): when an identity is supplied, found, and yields at least
one training sample, the response carries `verified = (40 < s)` for the
unrounded match score `s = max 0 (100 - d)` (`d` the classifier distance on
the first located probe face), while the *reported* confidence is `s`
rounded to one decimal; given a nonnegative distance, the reported
confidence lies in `[0, 100]`. Because of the rounding, the decision is
taken on the unrounded score, not on the returned confidence. -/
theorem verify_face_match_semantics {Img GImg : Type} (env : Env Img GImg)
    (st : St Img) (s sid : String) (i : Img) (f : Box) (rest : List Box)
    (student : Student) (d : ℚ)
    (hs : s ≠ "") (hdec : env.decode s = .ok i)
    (hdet : env.detect (env.toGray i) = f :: rest)
    (hsid : sid ≠ "") (hstu : st.students_db sid = some student)
    (htrain : trainSamples env st.fs student.face_paths ≠ [])
    (hd : d = env.predict (trainSamples env st.fs student.face_paths)
      (env.crop (env.toGray i) f))
    (hd0 : 0 ≤ d) :
    verify_face env st (some sid) (some s) =
      (.ok (decide (40 < pyMax 0 (100 - d)))
        (some (pyRound1 (pyMax 0 (100 - d))))
        (some student.name)
        (if 40 < pyMax 0 (100 - d) then "Face verified"
         else "Face does not match"), st)
    ∧ 0 ≤ pyRound1 (pyMax 0 (100 - d))
    ∧ pyRound1 (pyMax 0 (100 - d)) ≤ 100 := by
  refine ⟨?_, pyRound1_nonneg _ (pyMax_zero_nonneg _),
    pyRound1_le_100 _ (pyMax_score_le_100 d hd0)⟩
  rcases hl : trainSamples env st.fs student.face_paths with _ | ⟨a, l⟩
  · exact absurd hl htrain
  · rw [hl] at hd
    subst hd
    simp [verify_face, hs, hdec, hdet, hsid, hstu, hl]

/-- C1 counterexample: with classifier distance `d = 59.96` the unrounded
match score is `40.04`, so the code answers `verified = true` while the
returned confidence is the rounded value, exactly `40` — contradicting both
"the confidence returned equals max(0, 100 - d)" and "confidence exactly 40
gives verified=false". -/
theorem verify_face_rounding_counterexample :
    (verify_face cEnv cSt (some "s1") (some "probe")).1 =
      .ok true (some 40) (some "Alice") "Face verified"
    ∧ cEnv.predict (trainSamples cEnv cSt.fs [("s1", 0)])
        (cEnv.crop (cEnv.toGray 1) ⟨0, 0, 2, 2⟩) = 1499/25
    ∧ pyMax 0 (100 - 1499/25) ≠ 40 := by
  refine ⟨?_, rfl, ?_⟩
  · simp [verify_face, cEnv, cSt, trainSamples]
    norm_num [pyRound1, pyMax, roundHalfEven, Int.fract]
  · norm_num [pyMax]

/-- Witness for the amended C1 at the concrete enrolled identity. -/
theorem verify_face_match_semantics_witness :
    verify_face cEnv cSt (some "s1") (some "probe") =
      (.ok (decide (40 < pyMax 0 (100 - 1499/25)))
        (some (pyRound1 (pyMax 0 (100 - 1499/25))))
        (some "Alice")
        (if 40 < pyMax 0 (100 - 1499/25) then "Face verified"
         else "Face does not match"), cSt)
    ∧ 0 ≤ pyRound1 (pyMax 0 (100 - 1499/25))
    ∧ pyRound1 (pyMax 0 (100 - 1499/25)) ≤ 100 :=
  verify_face_match_semantics cEnv cSt "probe" "s1" 1 ⟨0, 0, 2, 2⟩ []
    ⟨"s1", "Alice", [("s1", 0)], "t0"⟩ (1499/25)
    (by simp) (by simp [cEnv]) (by simp [cEnv]) (by simp)
    (by simp [cSt]) (by simp [trainSamples, cEnv, cSt]) rfl (by norm_num)

/-- C2 (amended): when the identity is supplied and found but re-running the
locator over its stored images yields zero training samples, verify falls
through to the generic `verified = false`, "Student not found" 200 response
(the source has no "no trainable face data" message). -/
theorem verify_face_no_train {Img GImg : Type} (env : Env Img GImg)
    (st : St Img) (s sid : String) (i : Img) (f : Box) (rest : List Box)
    (student : Student)
    (hs : s ≠ "") (hdec : env.decode s = .ok i)
    (hdet : env.detect (env.toGray i) = f :: rest)
    (hsid : sid ≠ "") (hstu : st.students_db sid = some student)
    (htrain : trainSamples env st.fs student.face_paths = []) :
    verify_face env st (some sid) (some s) =
      (.ok false none none "Student not found", st) := by
  simp [verify_face, hs, hdec, hdet, hsid, hstu, htrain]

/-- C2 counterexample: `"s2"` is enrolled but its stored image is unreadable
after the JPEG round trip, so zero training samples result; the code answers
`verified = false` with message "Student not found", not the claimed
"no trainable face data". -/
theorem verify_face_no_train_counterexample :
    (verify_face cEnv cSt (some "s2") (some "probe")).1 =
      .ok false none none "Student not found"
    ∧ cSt.students_db "s2" = some ⟨"s2", "Bob", [("s2", 0)], "t0"⟩
    ∧ trainSamples cEnv cSt.fs [("s2", 0)] = []
    ∧ cEnv.detect (cEnv.toGray 1) ≠ []
    ∧ "Student not found" ≠ "no trainable face data" := by
  refine ⟨?_, by simp [cSt], by simp [trainSamples, cEnv, cSt], by simp [cEnv], by simp⟩
  simp [verify_face, cEnv, cSt, trainSamples]

/-- Witness for the amended C2 at the concrete identity with no trainable
data. -/
theorem verify_face_no_train_witness :
    verify_face cEnv cSt (some "s2") (some "probe") =
      (.ok false none none "Student not found", cSt) :=
  verify_face_no_train cEnv cSt "probe" "s2" 1 ⟨0, 0, 2, 2⟩ []
    ⟨"s2", "Bob", [("s2", 0)], "t0"⟩
    (by simp) (by simp [cEnv]) (by simp [cEnv]) (by simp)
    (by simp [cSt]) (by simp [trainSamples, cEnv, cSt])

/-- C3 (amended): when the identity is supplied and found, a face was
detected in the probe, and at least one training sample was produced, the
response includes the identity's display name regardless of the
verified/not-verified outcome. -/
theorem verify_face_includes_name {Img GImg : Type} (env : Env Img GImg)
    (st : St Img) (s sid : String) (i : Img) (f : Box) (rest : List Box)
    (student : Student)
    (hs : s ≠ "") (hdec : env.decode s = .ok i)
    (hdet : env.detect (env.toGray i) = f :: rest)
    (hsid : sid ≠ "") (hstu : st.students_db sid = some student)
    (htrain : trainSamples env st.fs student.face_paths ≠ []) :
    ∃ v c m, verify_face env st (some sid) (some s) =
      (.ok v c (some student.name) m, st) := by
  rcases hl : trainSamples env st.fs student.face_paths with _ | ⟨a, l⟩
  · exact absurd hl htrain
  · refine ⟨decide (40 < pyMax 0 (100 - env.predict (a :: l) (env.crop (env.toGray i) f))),
      some (pyRound1 (pyMax 0 (100 - env.predict (a :: l) (env.crop (env.toGray i) f)))),
      if 40 < pyMax 0 (100 - env.predict (a :: l) (env.crop (env.toGray i) f))
        then "Face verified" else "Face does not match", ?_⟩
    simp [verify_face, hs, hdec, hdet, hsid, hstu, hl]

/-- C3 counterexample: `"s1"` is supplied and present in the store, but the
probe contains no detectable face, and the "No face detected in image"
response carries no `student_name` field — so the display name is *not*
always included when an identity was supplied and found. -/
theorem verify_face_missing_name_counterexample :
    (verify_face cEnv cSt (some "s1") (some "noface")).1 =
      .ok false none none "No face detected in image"
    ∧ cSt.students_db "s1" = some ⟨"s1", "Alice", [("s1", 0)], "t0"⟩ := by
  exact ⟨by simp [verify_face, cEnv, cSt], by simp [cSt]⟩

/-- Witness for the amended C3 at the concrete enrolled identity. -/
theorem verify_face_includes_name_witness :
    ∃ v c m, verify_face cEnv cSt (some "s1") (some "probe") =
      (.ok v c (some "Alice") m, cSt) :=
  verify_face_includes_name cEnv cSt "probe" "s1" 1 ⟨0, 0, 2, 2⟩ []
    ⟨"s1", "Alice", [("s1", 0)], "t0"⟩
    (by simp) (by simp [cEnv]) (by simp [cEnv]) (by simp)
    (by simp [cSt]) (by simp [trainSamples, cEnv, cSt])

/-! ## Re-enrollment (C7) -/

/-- The path list `face_data/<sid>/face_<i>.jpg ... face_<i+n-1>.jpg` that a
successful enrollment of `n` images produces starting at index `i`. -/
def enrollPaths (sid : String) : Nat → Nat → List FacePath
  | _, 0 => []
  | i, n + 1 => (sid, i) :: enrollPaths sid (i + 1) n

lemma enrollPaths_length (sid : String) :
    ∀ (n i : Nat), (enrollPaths sid i n).length = n := by
  intro n
  induction n with
  | zero => intro i; rfl
  | succ n ih => intro i; simp [enrollPaths, ih]

lemma saveImages_ok_spec {Img GImg : Type} (env : Env Img GImg) (sid : String) :
    ∀ (imgs : List String) (fs : FacePath → Option Img) (i : Nat),
      (∀ d ∈ imgs, ∃ x, env.decode d = .ok x) →
      (saveImages env fs sid i imgs).2.1 = enrollPaths sid i imgs.length ∧
      (saveImages env fs sid i imgs).2.2 = none := by
  intro imgs
  induction imgs with
  | nil => intro fs i _; exact ⟨rfl, rfl⟩
  | cons d rest ih =>
    intro fs i hok
    obtain ⟨x, hx⟩ := hok d (by simp)
    have hrest := ih (fun p => if p = (sid, i) then some x else fs p) (i + 1)
      (fun d2 h2 => hok d2 (by simp [h2]))
    simp only [saveImages, hx, List.length_cons, enrollPaths]
    exact ⟨by rw [hrest.1], hrest.2⟩

/-- Paths below the current write index (or under another identity) are
untouched by the saving loop. -/
lemma saveImages_fs_frame {Img GImg : Type} (env : Env Img GImg) (sid : String) :
    ∀ (imgs : List String) (fs : FacePath → Option Img) (i : Nat)
      (p : FacePath), (p.1 ≠ sid ∨ p.2 < i) →
      (saveImages env fs sid i imgs).1 p = fs p := by
  intro imgs
  induction imgs with
  | nil => intro fs i p _; rfl
  | cons d rest ih =>
    intro fs i p hp
    cases hx : env.decode d with
    | error e => simp [saveImages, hx]
    | ok x =>
      have hp2 : p.1 ≠ sid ∨ p.2 < i + 1 := by
        rcases hp with h | h
        · exact Or.inl h
        · exact Or.inr (by omega)
      simp only [saveImages, hx]
      rw [ih (fun q => if q = (sid, i) then some x else fs q) (i + 1) p hp2]
      have hne : p ≠ (sid, i) := by
        rcases hp with h | h
        · intro hc; exact h (by rw [hc])
        · intro hc; rw [hc] at h; simp at h
      simp [hne]

/-- The file contents at the paths written by a successful saving loop
depend only on the submitted images, not on the previous filesystem. -/
lemma saveImages_fs_written {Img GImg : Type} (env : Env Img GImg) (sid : String) :
    ∀ (imgs : List String) (fs1 fs2 : FacePath → Option Img) (i : Nat),
      (∀ d ∈ imgs, ∃ x, env.decode d = .ok x) →
      ∀ p ∈ enrollPaths sid i imgs.length,
        (saveImages env fs1 sid i imgs).1 p = (saveImages env fs2 sid i imgs).1 p := by
  intro imgs
  induction imgs with
  | nil => intro fs1 fs2 i _ p hp; simp [enrollPaths] at hp
  | cons d rest ih =>
    intro fs1 fs2 i hok p hp
    obtain ⟨x, hx⟩ := hok d (by simp)
    simp only [List.length_cons, enrollPaths, List.mem_cons] at hp
    rcases hp with hp | hp
    · subst hp
      simp only [saveImages, hx]
      rw [saveImages_fs_frame env sid rest _ (i + 1) (sid, i) (Or.inr (by omega)),
        saveImages_fs_frame env sid rest _ (i + 1) (sid, i) (Or.inr (by omega))]
      simp
    · simp only [saveImages, hx]
      exact ih _ _ (i + 1) (fun d2 h2 => hok d2 (by simp [h2])) p hp

lemma trainSamples_congr {Img GImg : Type} (env : Env Img GImg) :
    ∀ (paths : List FacePath) (fs1 fs2 : FacePath → Option Img),
      (∀ p ∈ paths, fs1 p = fs2 p) →
      trainSamples env fs1 paths = trainSamples env fs2 paths := by
  intro paths
  induction paths with
  | nil => intro fs1 fs2 _; rfl
  | cons p rest ih =>
    intro fs1 fs2 h
    simp only [trainSamples]
    rw [h p (by simp), ih fs1 fs2 (fun p2 h2 => h p2 (by simp [h2]))]

/-- The verify response depends only on the identity record looked up and on
the file contents at that record's region paths. -/
lemma verify_face_congr {Img GImg : Type} (env : Env Img GImg)
    (s1 s2 : St Img) (sid : String) (img : Option String)
    (hdb : s1.students_db sid = s2.students_db sid)
    (hfs : ∀ rec, s1.students_db sid = some rec →
      ∀ p ∈ rec.face_paths, s1.fs p = s2.fs p) :
    (verify_face env s1 (some sid) img).1 = (verify_face env s2 (some sid) img).1 := by
  rcases img with _ | s
  · rfl
  · rcases eq_or_ne s "" with h | h
    · simp [verify_face, h]
    · rcases hdec : env.decode s with e | i
      · simp [verify_face, h, hdec]
      · rcases hdet : env.detect (env.toGray i) with _ | ⟨f, rest⟩
        · simp [verify_face, h, hdec, hdet]
        · rcases eq_or_ne sid "" with h2 | h2
          · simp [verify_face, h, hdec, hdet, h2]
          · rcases hrec : s1.students_db sid with _ | rec
            · simp [verify_face, h, hdec, hdet, h2, hrec, hdb ▸ hrec]
            · have hrec2 : s2.students_db sid = some rec := hdb ▸ hrec
              have htr : trainSamples env s1.fs rec.face_paths =
                  trainSamples env s2.fs rec.face_paths :=
                trainSamples_congr env rec.face_paths s1.fs s2.fs (hfs rec hrec)
              simp only [verify_face, if_neg h, hdec, hdet, if_neg h2, hrec, hrec2,
                htr]
              cases h3 : (trainSamples env s2.fs rec.face_paths).isEmpty <;>
                simp [h3]

/-- A successful enrollment: all images decode and the list is non-empty, so
the route saves every image and replaces the identity record. -/
lemma register_face_ok {Img GImg : Type} (env : Env Img GImg) (st : St Img)
    (id : String) (nm : Option String) (g t : String) (imgs : List String)
    (hne : imgs ≠ [])
    (hok : ∀ d ∈ imgs, ∃ x, env.decode d = .ok x) :
    register_face env st (some id) nm g t imgs =
      (.ok id ("Face registered for " ++ nm.getD "Unknown") imgs.length,
       { st with
           fs := (saveImages env st.fs id 0 imgs).1,
           students_db := fun s =>
             if s = id then
               some ⟨id, nm.getD "Unknown", enrollPaths id 0 imgs.length, t⟩
             else st.students_db s }) := by
  obtain ⟨hpaths, herr⟩ := saveImages_ok_spec env id imgs st.fs 0 hok
  simp only [register_face, if_neg hne, Option.getD_some]
  rw [herr]
  simp only [hpaths, enrollPaths_length]

/-- C7: re-enrolling the same id makes the stored record exactly the record
of the second call (display name, region-path list `face_0..face_{n-1}`,
timestamp), identical to what a single enrollment with the second payload
would have produced from the same starting state, and every subsequent
verification of that id answers exactly as it would after the second
enrollment alone — images from the first enrollment no longer influence it. -/
theorem register_face_last_write_wins {Img GImg : Type} (env : Env Img GImg)
    (st : St Img) (id : String) (nm1 nm2 : Option String)
    (g1 g2 t1 t2 : String) (imgs1 imgs2 : List String) (pimg : Option String)
    (h2ne : imgs2 ≠ [])
    (h2ok : ∀ d ∈ imgs2, ∃ x, env.decode d = .ok x) :
    (register_face env (register_face env st (some id) nm1 g1 t1 imgs1).2
        (some id) nm2 g2 t2 imgs2).2.students_db id
      = some ⟨id, nm2.getD "Unknown", enrollPaths id 0 imgs2.length, t2⟩
    ∧ (register_face env (register_face env st (some id) nm1 g1 t1 imgs1).2
        (some id) nm2 g2 t2 imgs2).2.students_db id
      = (register_face env st (some id) nm2 g2 t2 imgs2).2.students_db id
    ∧ (verify_face env
        (register_face env (register_face env st (some id) nm1 g1 t1 imgs1).2
          (some id) nm2 g2 t2 imgs2).2 (some id) pimg).1
      = (verify_face env (register_face env st (some id) nm2 g2 t2 imgs2).2
          (some id) pimg).1 := by
  obtain ⟨stMid, hmid⟩ : ∃ stMid : St Img,
      (register_face env st (some id) nm1 g1 t1 imgs1).2 = stMid := ⟨_, rfl⟩
  rw [hmid, register_face_ok env stMid id nm2 g2 t2 imgs2 h2ne h2ok,
    register_face_ok env st id nm2 g2 t2 imgs2 h2ne h2ok]
  refine ⟨by simp, by simp, ?_⟩
  apply verify_face_congr
  · simp
  · intro rec hrec p hp
    simp only [] at hrec
    simp at hrec
    subst hrec
    simp only []
    exact saveImages_fs_written env id imgs2 stMid.fs st.fs 0 h2ok p hp

/-- Witness for C7 at a concrete pair of successive enrollments of `"s1"`. -/
theorem register_face_last_write_wins_witness :
    (register_face cEnv
        (register_face cEnv cSt0 (some "s1") (some "A") "g1" "t1" ["i1"]).2
        (some "s1") (some "B") "g2" "t2" ["i2"]).2.students_db "s1"
      = some ⟨"s1", "B", enrollPaths "s1" 0 1, "t2"⟩
    ∧ (register_face cEnv
        (register_face cEnv cSt0 (some "s1") (some "A") "g1" "t1" ["i1"]).2
        (some "s1") (some "B") "g2" "t2" ["i2"]).2.students_db "s1"
      = (register_face cEnv cSt0 (some "s1") (some "B") "g2" "t2"
          ["i2"]).2.students_db "s1"
    ∧ (verify_face cEnv
        (register_face cEnv
          (register_face cEnv cSt0 (some "s1") (some "A") "g1" "t1" ["i1"]).2
          (some "s1") (some "B") "g2" "t2" ["i2"]).2
        (some "s1") (some "probe")).1
      = (verify_face cEnv
          (register_face cEnv cSt0 (some "s1") (some "B") "g2" "t2" ["i2"]).2
          (some "s1") (some "probe")).1 :=
  register_face_last_write_wins cEnv cSt0 "s1" (some "A") (some "B")
    "g1" "g2" "t1" "t2" ["i1"] ["i2"] (some "probe") (by simp)
    (by
      intro d hd
      simp only [List.mem_singleton] at hd
      subst hd
      exact ⟨4, by simp [cEnv]⟩)

end StudentPortal
